import Mathlib

/-!
Verification of the gitdb database interface module
(src/gitdb/db/interface.py) against its design specification.

The module is almost entirely contract surface: abstract classes whose
methods either raise NotImplementedError, carry only a docstring (and thus
fall through returning None), or perform small concrete computations
(RefSpec construction and rendering, the PushInfo/FetchInfo flag
enumerations, the membership operator dispatch). The definitions below
embed those concrete behaviours directly from the source; where a claim
concerns an implementation that lives outside this module, the embedding
is modelled from the specification and says so in its doc comment.
-/

namespace GitDBInterface

/-- Error values arising in the interface module: AttributeError,
NotImplementedError and ValueError are Python built-ins; BadObject,
AmbiguousObjectName and the capability error come from the documented
error taxonomy of the database contract. -/
inductive PyErr where
  | attributeError (name : String)
  | notImplementedError
  | valueError (msg : String)
  | badObject
  | ambiguousObjectName
  | capabilityError
  deriving DecidableEq, Repr

/-- The Python value returned by a method body that falls through without a
return statement (None), alongside the booleans some docstrings promise. -/
inductive PyVal where
  | none
  | bool (b : Bool)
  deriving DecidableEq, Repr

/-- Tests whether a Python value is a boolean. -/
def PyVal.isBool : PyVal → Bool
  | PyVal.bool _ => true
  | PyVal.none => false

/-- The attribute names class ObjectDBR defines (src/gitdb/db/interface.py,
lines 12-86): exactly its methods. No attribute named has_obj is among
them, and the file - the whole repository source - defines no subclass
that would add one. -/
def ObjectDBR.attrNames : List String :=
  ["__contains__", "has_object", "has_object_async", "info", "info_async",
   "stream", "stream_async", "size", "sha_iter",
   "partial_to_complete_sha_hex", "partial_to_complete_sha"]

/-- Python attribute lookup against a class attribute table: the name
resolves when it is defined, and AttributeError is raised otherwise. -/
def lookupAttr (attrs : List String) (name : String) : Except PyErr String :=
  if name ∈ attrs then Except.ok name else Except.error (PyErr.attributeError name)

/-- The attribute lookup performed by the body of ObjectDBR.__contains__
(lines 16-17), which reads `return self.has_obj(sha)`: before any call can
happen, the name has_obj must resolve on the instance. -/
def ObjectDBR.containsMethodLookup : Except PyErr String :=
  lookupAttr ObjectDBR.attrNames "has_obj"

/-- ObjectDBR.partial_to_complete_sha (lines 78-85): the body consists only
of the docstring, so for every argument pair the call falls through and
returns None without raising. -/
def ObjectDBR.partial_to_complete_sha (_binsha : List Nat)
    (_canonical_length : Nat) : Except PyErr PyVal :=
  Except.ok PyVal.none

/-- ObjectDBR.partial_to_complete_sha_hex (lines 70-76): the base method
raises NotImplementedError for every argument. -/
def ObjectDBR.partial_to_complete_sha_hex (_hexsha : List Nat) :
    Except PyErr PyVal :=
  Except.error PyErr.notImplementedError

/-- The digests of a backend that extend a given partial prefix. Digests
and prefixes are sequences of hex digits, so an odd-length prefix is
representable directly and the canonical-length parameter of the binary
variant is implicit in the length of the prefix itself. -/
def matchingDigests (digests : List (List Nat)) (p : List Nat) :
    List (List Nat) :=
  digests.filter (fun d => p.isPrefixOf d)

/-- Modelled from the spec: the resolution algorithm behind
ObjectDBR.partial_to_complete_sha_hex is not under src/ - the interface
method only documents and raises. Per the spec (resolve_partial), the
backend key space is scanned for digests sharing the prefix: a unique
match is returned, zero matches fail BadObject, and two or more matches
fail AmbiguousObjectName, with no preferred match chosen on ambiguity. -/
def resolvePartialHex (digests : List (List Nat)) (p : List Nat) :
    Except PyErr (List Nat) :=
  match matchingDigests digests p with
  | [] => Except.error PyErr.badObject
  | [d] => Except.ok d
  | _ :: _ :: _ => Except.error PyErr.ambiguousObjectName

/-- A stream or sink as the write contract sees it: only the presence of
the required write capability matters to the installation check. -/
structure Sink where
  hasWrite : Bool
  deriving DecidableEq, Repr

/-- Modelled from the spec: concrete implementations of
ObjectDBW.set_ostream are not under src/ - the interface method (lines
93-101) only raises NotImplementedError. Per the spec, set_output_sink
verifies the write capability of the sink, rejecting an incapable one with
CapabilityError, and otherwise installs it and returns the previously
installed sink, with None the sentinel meaning the backend default. The
result pairs the newly installed override with the returned previous
one. -/
def set_ostream (prev : Option Sink) (stream : Option Sink) :
    Except PyErr (Option Sink × Option Sink) :=
  match stream with
  | Option.none => Except.ok (Option.none, prev)
  | Option.some s =>
    if s.hasWrite then Except.ok (Option.some s, prev)
    else Except.error PyErr.capabilityError

/-- CachingDB.update_cache (lines 172-179): the body consists only of the
docstring, so for every force argument the call falls through and returns
None, despite the boolean return its docstring documents. -/
def CachingDB.update_cache (_force : Bool) : PyVal := PyVal.none

/-- The RefSpec record (lines 196-211): source (absent meaning the
destination is to be deleted), destination, and the force flag, exactly
the three declared slots. -/
structure RefSpec where
  source : Option String
  destination : Option String
  force : Bool
  deriving DecidableEq, Repr

/-- RefSpec.__init__ (lines 203-211): stores source, destination and force
on the instance, then raises ValueError when the destination is None. -/
def RefSpec.init (source destination : Option String) (force : Bool) :
    Except PyErr RefSpec :=
  let self : RefSpec := { source := source, destination := destination, force := force }
  if self.destination = Option.none then
    Except.error (PyErr.valueError "Destination must be set")
  else Except.ok self

/-- RefSpec.delete_destination (lines 226-227): reports whether the source
is None. -/
def RefSpec.delete_destination (r : RefSpec) : Bool :=
  r.source.isNone

/-- Rendering of the optional reference names stored on a RefSpec, as str()
sees them: str of None is the text None. -/
def pyStr : Option String → String
  | Option.none => "None"
  | Option.some s => s

/-- RefSpec.__str__ (lines 213-224): builds the git-style refspec text into
the local variable res but contains no return statement, so the method
falls through and returns None. -/
def RefSpec.dunderStr (r : RefSpec) : Option String :=
  let s := pyStr r.source
  let s := if r.source = Option.none then "" else s
  let d := pyStr r.destination
  let p := if r.force then "+" else ""
  let res := p ++ s ++ ":" ++ d
  Option.none

/-- The PushInfo flag constants (lines 246-247): the eleven names NEW_TAG,
NEW_HEAD, NO_MATCH, REJECTED, REMOTE_REJECTED, REMOTE_FAILURE, DELETED,
FORCED_UPDATE, FAST_FORWARD, UP_TO_DATE, ERROR are bound, in order, to the
list [1 << x for x in range(11)]. -/
def PushInfo.flagValues : List Nat :=
  (List.range 11).map (fun x => 1 <<< x)

/-- The FetchInfo flag constants (lines 267-268): the eight names NEW_TAG,
NEW_HEAD, HEAD_UPTODATE, TAG_UPDATE, REJECTED, FORCED_UPDATE, FAST_FORWARD,
ERROR are bound, in order, to the list [1 << x for x in range(8)]. -/
def FetchInfo.flagValues : List Nat :=
  (List.range 8).map (fun x => 1 <<< x)

/-- The __slots__ declaration of PushInfo (line 244): the empty tuple. -/
def PushInfo.slots : List String := []

/-- The __slots__ declaration of FetchInfo (line 265): the empty tuple. -/
def FetchInfo.slots : List String := []

/-- Attribute assignment on a direct instance of a new-style class whose
class hierarchy declares __slots__ and provides no instance dictionary:
the assigned name must appear among the slots, otherwise AttributeError is
raised. -/
def setattrOnSlots (slots : List String) (name : String) : Except PyErr Unit :=
  if name ∈ slots then Except.ok ()
  else Except.error (PyErr.attributeError name)

/-- C1: the membership operator cannot delegate to has_object: the body of
ObjectDBR.__contains__ resolves the attribute name has_obj, which no class
in the repository defines (the membership test is named has_object), so
`sha in db` raises AttributeError for every digest instead of returning
the boolean of has_object. -/
theorem contains_lookup_fails :
    ObjectDBR.containsMethodLookup = Except.error (PyErr.attributeError "has_obj")
    ∧ ObjectDBR.attrNames.contains "has_object" = true
    ∧ ObjectDBR.attrNames.contains "has_obj" = false := by
  refine ⟨rfl, by decide, by decide⟩

/-- C2: for every backend digest list and partial hex prefix, resolution
returns the unique matching digest when exactly one digest extends the
prefix, fails BadObject when none does, and fails AmbiguousObjectName when
two or more do; ambiguity is never silently resolved to a preferred
match. -/
theorem resolvePartial_trichotomy (digests : List (List Nat)) (p : List Nat) :
    (∀ d, matchingDigests digests p = [d] →
        resolvePartialHex digests p = Except.ok d)
    ∧ (matchingDigests digests p = [] →
        resolvePartialHex digests p = Except.error PyErr.badObject)
    ∧ (2 ≤ (matchingDigests digests p).length →
        resolvePartialHex digests p = Except.error PyErr.ambiguousObjectName) := by
  refine ⟨fun d hd => ?_, fun h0 => ?_, fun h2 => ?_⟩
  · simp [resolvePartialHex, hd]
  · simp [resolvePartialHex, h0]
  · match hm : matchingDigests digests p with
    | [] => rw [hm] at h2; simp at h2
    | [d] => rw [hm] at h2; simp at h2
    | a :: b :: t => simp [resolvePartialHex, hm]

/-- Concrete instances of the three resolution outcomes: a unique match is
returned, an unmatched prefix fails BadObject, and a shared prefix fails
AmbiguousObjectName. -/
theorem resolvePartial_trichotomy_w :
    resolvePartialHex [[1, 10, 2], [3, 12, 4]] [1, 10] = Except.ok [1, 10, 2]
    ∧ resolvePartialHex [[1, 10, 2], [3, 12, 4]] [15] = Except.error PyErr.badObject
    ∧ resolvePartialHex [[1, 10, 2], [1, 10, 9]] [1, 10]
        = Except.error PyErr.ambiguousObjectName :=
  ⟨(resolvePartial_trichotomy [[1, 10, 2], [3, 12, 4]] [1, 10]).1 [1, 10, 2] (by decide),
   (resolvePartial_trichotomy [[1, 10, 2], [3, 12, 4]] [15]).2.1 (by decide),
   (resolvePartial_trichotomy [[1, 10, 2], [1, 10, 9]] [1, 10]).2.2 (by decide)⟩

/-- C3: constructing a RefSpec with an absent destination raises ValueError
for every source and force flag; construction with a non-absent
destination always succeeds, yielding the stored triple. -/
theorem refSpec_init_validation :
    (∀ source force, RefSpec.init source Option.none force
        = Except.error (PyErr.valueError "Destination must be set"))
    ∧ ∀ source d force, RefSpec.init source (Option.some d) force
        = Except.ok { source := source, destination := Option.some d, force := force } := by
  exact ⟨fun _ _ => rfl, fun _ _ _ => rfl⟩

/-- C4: for every successfully constructed RefSpec, delete_destination
reports true exactly when the source is absent; a refspec with a present
source never reports a delete request. -/
theorem delete_destination_iff (s d : Option String) (f : Bool) (r : RefSpec)
    (h : RefSpec.init s d f = Except.ok r) :
    (RefSpec.delete_destination r = true ↔ r.source = Option.none) := by
  cases hs : r.source <;> simp [RefSpec.delete_destination, hs]

/-- A successfully constructed RefSpec with absent source reports a delete
request. -/
theorem delete_destination_iff_w :
    RefSpec.delete_destination
      { source := Option.none, destination := Option.some "d", force := false } = true :=
  (delete_destination_iff Option.none (Option.some "d") false _ rfl).mpr rfl

/-- C5: CachingDB.update_cache never returns a boolean: its body is only
the docstring, so for every force argument the call returns None, contrary
to the True/False return its own docstring documents. -/
theorem update_cache_returns_none :
    ∀ force, CachingDB.update_cache force = PyVal.none
      ∧ PyVal.isBool (CachingDB.update_cache force) = false :=
  fun _ => ⟨rfl, rfl⟩

/-- C6: installing a sink that lacks the write capability fails with
CapabilityError, whatever sink was previously installed; a capable sink is
accepted and the previously installed sink - None standing for the backend
default - is returned. -/
theorem set_ostream_capability (prev : Option Sink) (s : Sink) :
    (s.hasWrite = false →
        set_ostream prev (Option.some s) = Except.error PyErr.capabilityError)
    ∧ (s.hasWrite = true →
        set_ostream prev (Option.some s) = Except.ok (Option.some s, prev)) := by
  constructor <;> intro h <;> simp [set_ostream, h]

/-- Concrete instances of sink installation: an incapable sink is rejected
and a capable one is installed, returning the previous sink. -/
theorem set_ostream_capability_w :
    set_ostream Option.none (Option.some ⟨false⟩) = Except.error PyErr.capabilityError
    ∧ set_ostream (Option.some ⟨true⟩) (Option.some ⟨true⟩)
        = Except.ok (Option.some ⟨true⟩, Option.some ⟨true⟩) :=
  ⟨(set_ostream_capability Option.none ⟨false⟩).1 rfl,
   (set_ostream_capability (Option.some ⟨true⟩) ⟨true⟩).2 rfl⟩

/-- C7: the outcome-flag constants form a fixed bitmask enumeration: there
are eleven PushInfo flags and eight FetchInfo flags, the flag at position
i equals the power of two 2 ^ i - so all flags of an enumeration are
distinct - and the bitwise AND of any two distinct flags of the same
enumeration is zero. -/
theorem flag_enums_are_bitmasks :
    (PushInfo.flagValues.length = 11 ∧ FetchInfo.flagValues.length = 8)
    ∧ (∀ i < 11, PushInfo.flagValues.getD i 0 = 2 ^ i)
    ∧ (∀ i < 8, FetchInfo.flagValues.getD i 0 = 2 ^ i)
    ∧ (∀ i < 11, ∀ j < 11, i ≠ j →
        PushInfo.flagValues.getD i 0 &&& PushInfo.flagValues.getD j 0 = 0)
    ∧ (∀ i < 8, ∀ j < 8, i ≠ j →
        FetchInfo.flagValues.getD i 0 &&& FetchInfo.flagValues.getD j 0 = 0) := by
  decide

/-- Concrete instances of flag disjointness: NEW_TAG against UP_TO_DATE in
the PushInfo enumeration and NEW_TAG against ERROR in the FetchInfo
enumeration both AND to zero. -/
theorem flag_enums_are_bitmasks_w :
    PushInfo.flagValues.getD 0 0 &&& PushInfo.flagValues.getD 9 0 = 0
    ∧ FetchInfo.flagValues.getD 0 0 &&& FetchInfo.flagValues.getD 7 0 = 0 :=
  ⟨flag_enums_are_bitmasks.2.2.2.1 0 (by decide) 9 (by decide) (by decide),
   flag_enums_are_bitmasks.2.2.2.2 0 (by decide) 7 (by decide) (by decide)⟩

/-- C8: every successfully constructed RefSpec renders to None: __str__
composes the git-style [+]source:destination text into a local variable
but never returns it. -/
theorem refSpec_str_returns_none (s d : Option String) (f : Bool) (r : RefSpec)
    (h : RefSpec.init s d f = Except.ok r) :
    RefSpec.dunderStr r = Option.none :=
  rfl

/-- A concrete constructed RefSpec whose rendering is None. -/
theorem refSpec_str_returns_none_w :
    RefSpec.dunderStr
      { source := Option.some "a", destination := Option.some "b", force := true }
      = Option.none :=
  refSpec_str_returns_none (Option.some "a") (Option.some "b") true _ rfl

/-- C9: the base partial_to_complete_sha returns None and raises nothing,
for every partial binary sha and canonical length, while the neighbouring
partial_to_complete_sha_hex raises the unimplemented-method error for
every argument. -/
theorem base_partial_sha_returns_none :
    (∀ b n, ObjectDBR.partial_to_complete_sha b n = Except.ok PyVal.none)
    ∧ ∀ h, ObjectDBR.partial_to_complete_sha_hex h
        = Except.error PyErr.notImplementedError :=
  ⟨fun _ _ => rfl, fun _ => rfl⟩

/-- C10: direct PushInfo and FetchInfo instances admit no instance
attributes: both classes declare empty __slots__, so assigning any name -
the documented members flags, ref, note, old_commit, local_ref,
remote_ref, summary included - raises AttributeError. -/
theorem empty_slots_reject_all_attributes :
    ∀ name, setattrOnSlots PushInfo.slots name
        = Except.error (PyErr.attributeError name)
      ∧ setattrOnSlots FetchInfo.slots name
        = Except.error (PyErr.attributeError name) :=
  fun _ => ⟨rfl, rfl⟩

end GitDBInterface
